import Mathlib

/-!
Shallow embedding of the clinical finding → differential diagnosis pipeline of
`services/diagnostic_engine.py` (class `DiagnosticEngine`), together with the
data model of `models/assessment.py` and `models/patient.py`.

Python floats are modelled as rationals (all the arithmetic of the pipeline is
closed-form over small decimal literals), Python strings as Lean strings
(all the data involved is ASCII), and the FHIR-style dynamic input dictionaries
as a JSON-like value type with Python attribute/indexing error semantics.
-/

/-- Python `str.lower()` (character-wise; the repository only handles ASCII). -/
def lowerStr (s : String) : String := String.mk (s.data.map Char.toLower)

/-- `isPrefixL needle hay`: `needle` is a prefix of `hay` (on char lists). -/
def isPrefixL : List Char → List Char → Bool
  | [], _ => true
  | _ :: _, [] => false
  | a :: as, b :: bs => a == b && isPrefixL as bs

/-- `containsL needle hay`: `needle` occurs as a contiguous substring of `hay`. -/
def containsL (needle : List Char) : List Char → Bool
  | [] => isPrefixL needle []
  | b :: bs => isPrefixL needle (b :: bs) || containsL needle bs

/-- Python `needle in hay` for strings (substring containment). -/
def strContains (hay needle : String) : Bool := containsL needle.data hay.data

/-- Helper of `splitWs`: accumulates the current word (reversed) while scanning. -/
def splitWsAux : List Char → List Char → List String
  | [], acc => if acc.isEmpty then [] else [String.mk acc.reverse]
  | c :: cs, acc =>
      if c == ' ' then
        if acc.isEmpty then splitWsAux cs [] else String.mk acc.reverse :: splitWsAux cs []
      else splitWsAux cs (c :: acc)

/-- Python `str.split()` (split on whitespace runs, dropping empty tokens; the
display names being split only contain ordinary spaces). -/
def splitWs (s : String) : List String := splitWsAux s.data []

/-- Python `" ".join(xs)`. -/
def joinSp : List String → String
  | [] => ""
  | [s] => s
  | s :: rest => s ++ " " ++ joinSp rest

/-! ## Data model (`models/assessment.py`, `models/patient.py`) -/

/-- `FindingType` enum. -/
inductive FindingType where
  | symptom | sign | lab | imaging | vital
deriving DecidableEq

/-- `UrgencyLevel` enum. -/
inductive UrgencyLevel where
  | low | medium | high | critical
deriving DecidableEq

/-- `ClinicalFinding` pydantic model (the optional severity/onset/duration
fields are never set by the diagnostic engine and are omitted). pydantic
validates `confidence` against `ge=0.0, le=1.0`; the engine constructs
findings with the constants 0.8 and 0.9 except in the radiology path, whose
dynamic confidence is checked at the construction site (`radiologyFinding`). -/
structure ClinicalFinding where
  finding_type : FindingType
  description : String
  confidence : ℚ
  source : String
  icd10_codes : List String
  snomed_codes : List String
deriving DecidableEq

/-- `DiagnosticEvidence` pydantic model. -/
structure DiagnosticEvidence where
  evidence_type : String
  description : String
  strength : ℚ
  source : String
deriving DecidableEq

/-- `Diagnosis` pydantic model. -/
structure Diagnosis where
  code : String
  name : String
  confidence : ℚ
  evidence : List DiagnosticEvidence
  probability : ℚ
  differential_rank : Nat
deriving DecidableEq

/-- `RadiologyAnalysis` pydantic model (`models/patient.py`); the
`confidence_scores` dict is an association list. -/
structure RadiologyAnalysis where
  process_name : String
  findings : List String
  confidence_scores : List (String × ℚ)
  recommendations : List String
  severity : String
deriving DecidableEq

/-! ## Static code tables (`_load_icd10_codes`, `_load_snomed_codes`) -/

/-- One row of a code table: dict key (code) plus name/category. -/
structure CodeEntry where
  code : String
  name : String
  category : String
deriving DecidableEq

/-- The static ICD-10 table, in dict insertion order. -/
def icd10_codes : List CodeEntry := [
  ⟨"I25.9", "Chronic ischemic heart disease, unspecified", "cardiovascular"⟩,
  ⟨"J44.1", "Chronic obstructive pulmonary disease with acute exacerbation", "respiratory"⟩,
  ⟨"M79.3", "Panniculitis, unspecified", "musculoskeletal"⟩,
  ⟨"R50.9", "Fever, unspecified", "symptoms"⟩,
  ⟨"Z00.00", "Encounter for general adult medical examination without abnormal findings", "examination"⟩,
  ⟨"K21.9", "Gastro-esophageal reflux disease without esophagitis", "digestive"⟩,
  ⟨"F32.9", "Major depressive disorder, single episode, unspecified", "mental"⟩,
  ⟨"E11.9", "Type 2 diabetes mellitus without complications", "endocrine"⟩,
  ⟨"N18.6", "End stage renal disease", "genitourinary"⟩,
  ⟨"C78.00", "Secondary malignant neoplasm of unspecified lung", "neoplasms"⟩]

/-- The static SNOMED-CT table, in dict insertion order. -/
def snomed_codes : List CodeEntry := [
  ⟨"44054006", "Diabetes mellitus", "disorder"⟩,
  ⟨"195967001", "Asthma", "disorder"⟩,
  ⟨"38341003", "Hypertensive disorder, systemic arterial", "disorder"⟩,
  ⟨"22253000", "Pain", "symptom"⟩,
  ⟨"386053000", "Decision to admit", "procedure"⟩,
  ⟨"225358003", "Chest pain", "symptom"⟩,
  ⟨"267036007", "Dyspnea", "symptom"⟩,
  ⟨"25064002", "Headache", "symptom"⟩,
  ⟨"161891005", "History of myocardial infarction", "history"⟩,
  ⟨"271737000", "Abnormal chest X-ray", "finding"⟩]

/-- One diagnostic reasoning rule (`_load_diagnostic_rules` inner dicts). -/
structure DiagnosticRule where
  conditions : List String
  differential : List String
  urgency : String
  required_tests : List String
deriving DecidableEq

/-- The static diagnostic rule table keyed by rule-group name, in dict
insertion order. -/
def diagnostic_rules : List (String × List DiagnosticRule) := [
  ("chest_pain", [⟨["chest pain", "chest discomfort"], ["I25.9", "J44.1", "R50.9"],
    "high", ["ECG", "chest X-ray", "troponin"]⟩]),
  ("shortness_breath", [⟨["dyspnea", "shortness of breath", "breathing difficulty"],
    ["J44.1", "I25.9", "C78.00"], "high", ["chest X-ray", "ABG", "pulse oximetry"]⟩]),
  ("fever", [⟨["fever", "elevated temperature", "pyrexia"], ["R50.9", "J44.1", "K21.9"],
    "medium", ["blood culture", "CBC", "chest X-ray"]⟩])]

/-- Dict lookup `table[code]` / `code in table` for the code tables. -/
def lookupEntry (table : List CodeEntry) (code : String) : Option CodeEntry :=
  table.find? (fun e => e.code == code)

/-! ## Code lookup (`_find_related_icd10_codes`, `_find_related_snomed_codes`) -/

/-- Common body of the two `_find_related_*_codes` methods: keep a table
entry's code when any whitespace token of its lowercased name occurs as a
substring of the lowercased text. -/
def findRelatedCodes (table : List CodeEntry) (text : String) : List String :=
  let text_lower := lowerStr text
  table.filterMap (fun e =>
    if (splitWs (lowerStr e.name)).any (fun keyword => strContains text_lower keyword) then
      some e.code
    else none)

/-- `_find_related_icd10_codes`. -/
def find_related_icd10_codes (text : String) : List String :=
  findRelatedCodes icd10_codes text

/-- `_find_related_snomed_codes`. -/
def find_related_snomed_codes (text : String) : List String :=
  findRelatedCodes snomed_codes text

/-! ## Diagnosis scoring (`_calculate_diagnosis_confidence`, `_generate_evidence`,
`_calculate_diagnosis_probability`) -/

/-- The `matching_findings` counter loop of `_calculate_diagnosis_confidence`. -/
def countMatchingFindings (clinical_findings : List ClinicalFinding) (icd10_code : String) : Nat :=
  clinical_findings.foldl
    (fun matching_findings f =>
      if f.icd10_codes.contains icd10_code then matching_findings + 1 else matching_findings) 0

/-- `_calculate_diagnosis_confidence`. -/
def calculate_diagnosis_confidence (clinical_findings : List ClinicalFinding)
    (icd10_code : String) : ℚ :=
  if clinical_findings.isEmpty then 1/2
  else min (9/10) (1/2 + (countMatchingFindings clinical_findings icd10_code : ℚ) * (1/10))

/-- `_calculate_diagnosis_probability` (delegates to the confidence computation). -/
def calculate_diagnosis_probability (clinical_findings : List ClinicalFinding)
    (icd10_code : String) : ℚ :=
  calculate_diagnosis_confidence clinical_findings icd10_code

/-- `_generate_evidence`. -/
def generate_evidence (clinical_findings : List ClinicalFinding)
    (icd10_code : String) : List DiagnosticEvidence :=
  clinical_findings.filterMap (fun f =>
    if f.icd10_codes.contains icd10_code then
      some { evidence_type := "clinical_finding", description := f.description,
             strength := f.confidence, source := f.source }
    else none)

/-! ## Rule matching and ranking (`_generate_differential_diagnoses`) -/

/-- The lowercase space-joined blob `" ".join(finding_texts)`. -/
def findingsBlob (clinical_findings : List ClinicalFinding) : String :=
  joinSp (clinical_findings.map (fun f => lowerStr f.description))

/-- All rules of the table, in the nested iteration order of the source. -/
def allRules : List DiagnosticRule := (diagnostic_rules.map Prod.snd).flatten

/-- `any(condition in blob for condition in rule["conditions"])`. -/
def ruleTriggers (blob : String) (rule : DiagnosticRule) : Bool :=
  rule.conditions.any (fun condition => strContains blob condition)

/-- The candidate ICD-10 codes produced by the triggered rules, in order
(codes absent from the ICD-10 table are skipped; duplicates are kept). -/
def triggeredCodes (blob : String) : List String :=
  allRules.flatMap (fun rule =>
    if ruleTriggers blob rule then
      rule.differential.filter (fun c => (lookupEntry icd10_codes c).isSome)
    else [])

/-- The sort key comparison of `differential_diagnoses.sort(key=..., reverse=True)`:
`a` may stay before `b` iff `a`'s key `(confidence+probability)/2` is ≥ `b`'s.
Used with a stable sort this is exactly Python's stable descending sort. -/
def diagSortLe (a b : Diagnosis) : Prop :=
  (b.confidence + b.probability) / 2 ≤ (a.confidence + a.probability) / 2

instance : DecidableRel diagSortLe := fun a b =>
  inferInstanceAs (Decidable ((b.confidence + b.probability) / 2 ≤ (a.confidence + a.probability) / 2))

/-- The `Diagnosis(...)` constructor call of the rule-expansion loop, for the
candidate at (0-based) pre-sort position `p.1` with code `p.2`:
`differential_rank` is `len(differential_diagnoses) + 1` at append time, i.e.
the 1-based pre-sort position. -/
def mkDiagnosis (clinical_findings : List ClinicalFinding) (p : Nat × String) : Diagnosis :=
  { code := p.2
    name := ((lookupEntry icd10_codes p.2).map (fun e => e.name)).getD ""
    confidence := calculate_diagnosis_confidence clinical_findings p.2
    evidence := generate_evidence clinical_findings p.2
    probability := calculate_diagnosis_probability clinical_findings p.2
    differential_rank := p.1 + 1 }

/-- `_generate_differential_diagnoses`: expand triggered rules into `Diagnosis`
records, stable-sort descending by `(confidence+probability)/2`, and keep the
top 5. -/
def generate_differential_diagnoses (clinical_findings : List ClinicalFinding) : List Diagnosis :=
  let blob := findingsBlob clinical_findings
  let pre := (triggeredCodes blob).enum.map (mkDiagnosis clinical_findings)
  (List.insertionSort diagSortLe pre).take 5

/-- `_determine_primary_diagnosis`. -/
def determine_primary_diagnosis (differential_diagnoses : List Diagnosis) : Option Diagnosis :=
  differential_diagnoses.head?

/-! ## Aggregate derivations -/

/-- `_calculate_confidence_score`. -/
def calculate_confidence_score (clinical_findings : List ClinicalFinding)
    (differential_diagnoses : List Diagnosis) : ℚ :=
  if clinical_findings.isEmpty && differential_diagnoses.isEmpty then 0
  else
    let findings_score : ℚ :=
      if !clinical_findings.isEmpty then
        (clinical_findings.map (fun f => f.confidence)).sum / (clinical_findings.length : ℚ)
      else 0
    let diagnoses_score : ℚ :=
      if !differential_diagnoses.isEmpty then
        (differential_diagnoses.map (fun d => d.confidence)).sum / (differential_diagnoses.length : ℚ)
      else 0
    findings_score * (6/10) + diagnoses_score * (4/10)

/-- The `high_urgency_keywords` literal of `_determine_urgency_level`. -/
def high_urgency_keywords : List String :=
  ["acute", "severe", "critical", "emergency", "chest pain", "shortness of breath"]

/-- The `medium_urgency_keywords` literal of `_determine_urgency_level`. -/
def medium_urgency_keywords : List String := ["moderate", "worsening", "persistent"]

/-- `_determine_urgency_level` (the `differential_diagnoses` parameter is
accepted but unused, as in the source). -/
def determine_urgency_level (clinical_findings : List ClinicalFinding)
    (differential_diagnoses : List Diagnosis) : UrgencyLevel :=
  let all_text := joinSp (clinical_findings.map (fun f => lowerStr f.description))
  if high_urgency_keywords.any (fun keyword => strContains all_text keyword) then .high
  else if medium_urgency_keywords.any (fun keyword => strContains all_text keyword) then .medium
  else .low

/-- `_determine_follow_up`. -/
def determine_follow_up (differential_diagnoses : List Diagnosis)
    (urgency_level : UrgencyLevel) : Bool × Option String :=
  if urgency_level = .high then (true, some "24-48 hours")
  else if urgency_level = .medium then (true, some "1-2 weeks")
  else if !differential_diagnoses.isEmpty then (true, some "2-4 weeks")
  else (false, none)

/-- `_generate_treatment_recommendations`. -/
def generate_treatment_recommendations (differential_diagnoses : List Diagnosis)
    (clinical_findings : List ClinicalFinding) : List String :=
  (match differential_diagnoses with
   | [] => []
   | primary :: _ =>
      ["Consider treatment for " ++ primary.name, "Monitor response to treatment",
       "Adjust therapy based on clinical response"])
  ++ ["Patient education on condition and management", "Lifestyle modifications as appropriate"]

/-- `_generate_monitoring_requirements`. -/
def generate_monitoring_requirements (differential_diagnoses : List Diagnosis)
    (urgency_level : UrgencyLevel) : List String :=
  if urgency_level = .high then
    ["Continuous vital signs monitoring", "Frequent clinical assessment",
     "Laboratory monitoring as indicated"]
  else if urgency_level = .medium then
    ["Regular vital signs", "Symptom monitoring", "Follow-up laboratory tests"]
  else
    ["Routine follow-up", "Symptom monitoring", "Annual screening as appropriate"]

/-- The `red_flag_keywords` literal of `_identify_red_flags`. -/
def red_flag_keywords : List String :=
  ["severe", "acute", "sudden", "worsening", "unable to",
   "chest pain", "shortness of breath", "loss of consciousness"]

/-- `_identify_red_flags`. -/
def identify_red_flags (clinical_findings : List ClinicalFinding)
    (differential_diagnoses : List Diagnosis) : List String :=
  clinical_findings.flatMap (fun f =>
    if red_flag_keywords.any (fun keyword => strContains (lowerStr f.description) keyword) then
      ["Red flag: " ++ f.description]
    else [])

/-- The per-finding if/elif chain of `_identify_risk_factors` (at most one risk
factor per finding, `diabetes` checked first). -/
def risk_factor_for_finding (f : ClinicalFinding) : List String :=
  if strContains (lowerStr f.description) "diabetes" then ["Diabetes mellitus"]
  else if strContains (lowerStr f.description) "hypertension" then ["Hypertension"]
  else if strContains (lowerStr f.description) "smoking" then ["Smoking history"]
  else []

/-! ## FHIR-style dynamic input (`patient_data`) with Python error semantics

`generate_assessment` receives `patient_data` as a plain `dict`; the values
inside it are arbitrary JSON-like data. Attribute/indexing errors raised by the
dynamic accesses (`.get` on a non-dict, iterating a non-iterable, `[0]` on an
empty list, …) are modelled in an `Except` monad. -/

/-- JSON-like Python value. -/
inductive JVal where
  | null
  | bool (b : Bool)
  | int (n : Int)
  | str (s : String)
  | arr (items : List JVal)
  | obj (fields : List (String × JVal))

/-- The Python exception kinds raised by the operations the engine performs. -/
inductive PyError where
  | attributeError
  | typeError
  | indexError
  | keyError
  | validationError
deriving DecidableEq

/-- Dict lookup on an association list (first binding wins). -/
def jLookup (fields : List (String × JVal)) (k : String) : Option JVal :=
  (fields.find? (fun p => p.1 == k)).map (fun p => p.2)

/-- Python `v.get(k, dflt)`: `AttributeError` unless `v` is a dict. -/
def jGetD (v : JVal) (k : String) (dflt : JVal) : Except PyError JVal :=
  match v with
  | .obj fields => .ok ((jLookup fields k).getD dflt)
  | _ => .error .attributeError

/-- Python `v == "k"` for a string literal (never raises; `False` across types). -/
def jEqStr (v : JVal) (k : String) : Bool :=
  match v with
  | .str s => s == k
  | _ => false

/-- Python truthiness `bool(v)`. -/
def pyTruthy : JVal → Bool
  | .null => false
  | .bool b => b
  | .int n => n != 0
  | .str s => !s.isEmpty
  | .arr items => !items.isEmpty
  | .obj fields => !fields.isEmpty

/-- Python `v.lower()`-style string use: `AttributeError` unless `v` is a `str`. -/
def pyStr : JVal → Except PyError String
  | .str s => .ok s
  | _ => .error .attributeError

/-- pydantic validation of a `str`-typed field value (here: the items of
`icd10_codes: List[str]`): a non-string raises a `ValidationError`. -/
def pyStrField : JVal → Except PyError String
  | .str s => .ok s
  | _ => .error .validationError

/-- Python `v[0]`: head of a list/str (`IndexError` when empty), `KeyError`
for a dict without the key `0`, `TypeError` otherwise. -/
def jIndex0 : JVal → Except PyError JVal
  | .arr [] => .error .indexError
  | .arr (x :: _) => .ok x
  | .str s =>
      match s.data with
      | [] => .error .indexError
      | c :: _ => .ok (.str (String.mk [c]))
  | .obj _ => .error .keyError
  | _ => .error .typeError

/-- Python `for x in v`: the iterated items (`TypeError` for non-iterables;
iterating a dict yields its keys, iterating a string its characters). -/
def jIterItems : JVal → Except PyError (List JVal)
  | .arr items => .ok items
  | .str s => .ok (s.data.map (fun c => .str (String.mk [c])))
  | .obj fields => .ok (fields.map (fun p => .str p.1))
  | _ => .error .typeError

/-! ## Finding extraction (`_extract_clinical_findings`, `_extract_radiology_findings`) -/

/-- The `resourceType == "Condition"` branch of the entry loop, given the
fields of the (already dict-checked) `resource`. Mirrors the evaluation order
of the source: `code_info = resource.get("code", {}).get("coding", [{}])[0]`,
then the keyword arguments of `ClinicalFinding(...)` left to right (the
`.lower()` inside `_find_related_snomed_codes` fails on a non-string `display`
before pydantic validates the `icd10_codes` items). -/
def conditionFinding (rfields : List (String × JVal)) : Except PyError (List ClinicalFinding) := do
  let c := (jLookup rfields "code").getD (.obj [])
  let coding ← jGetD c "coding" (.arr [.obj []])
  let code_info ← jIndex0 coding
  match code_info with
  | .obj cfields =>
    let snomed_text ← pyStr ((jLookup cfields "display").getD (.str ""))
    let descr ← pyStr ((jLookup cfields "display").getD (.str "Unknown condition"))
    let code_str ← pyStrField ((jLookup cfields "code").getD (.str ""))
    pure [{ finding_type := .sign
            description := descr
            confidence := 9/10
            source := "existing_diagnosis"
            icd10_codes := [code_str]
            snomed_codes := find_related_snomed_codes snomed_text }]
  | _ => .error .attributeError

/-- One iteration of the `for entry in patient_data["entry"]` loop of
`_extract_clinical_findings`. -/
def processEntry (entry : JVal) : Except PyError (List ClinicalFinding) :=
  match entry with
  | .obj efields =>
    match (jLookup efields "resource").getD (.obj []) with
    | .obj rfields =>
      let rt := (jLookup rfields "resourceType").getD .null
      if jEqStr rt "Observation" then
        match jLookup rfields "valueString" with
        | some vs =>
          (pyStr vs).map (fun s =>
            [{ finding_type := .symptom
               description := s
               confidence := 8/10
               source := "anamnesis"
               icd10_codes := find_related_icd10_codes s
               snomed_codes := find_related_snomed_codes s }])
        | none => .ok []
      else if jEqStr rt "Condition" then
        conditionFinding rfields
      else .ok []
    | _ => .error .attributeError
  | _ => .error .attributeError

/-- `_extract_clinical_findings`. -/
def extract_clinical_findings (patient_data : List (String × JVal)) :
    Except PyError (List ClinicalFinding) :=
  match jLookup patient_data "entry" with
  | none => .ok []
  | some entriesVal => do
    let entries ← jIterItems entriesVal
    let fss ← entries.mapM processEntry
    pure fss.flatten

/-- The `ClinicalFinding(...)` constructor call of `_extract_radiology_findings`
for one finding text. Its `confidence` is the only dynamically supplied one in
the engine, so pydantic's `ge=0.0, le=1.0` bound on
`ClinicalFinding.confidence` is checked here: an out-of-range score raises a
`ValidationError`. -/
def radiologyFinding (analysis : RadiologyAnalysis) (finding_text : String) :
    Except PyError ClinicalFinding :=
  let confidence : ℚ :=
    ((analysis.confidence_scores.find? (fun p => p.1 == finding_text)).map
      (fun p => p.2)).getD (7/10)
  if 0 ≤ confidence ∧ confidence ≤ 1 then
    .ok { finding_type := .imaging
          description := finding_text
          confidence := confidence
          source := "radiology_" ++ analysis.process_name
          icd10_codes := find_related_icd10_codes finding_text
          snomed_codes := find_related_snomed_codes finding_text }
  else .error .validationError

/-- `_extract_radiology_findings` (nested loop over analyses and their
finding texts; the first pydantic failure propagates). -/
def extract_radiology_findings (radiology_analysis : List RadiologyAnalysis) :
    Except PyError (List ClinicalFinding) :=
  (radiology_analysis.mapM (fun analysis : RadiologyAnalysis =>
    analysis.findings.mapM (radiologyFinding analysis))).map List.flatten

/-! ## Risk factors (`_identify_risk_factors`, `_calculate_age`) -/

/-- `_calculate_age` on the `birthDate` value: the source parses the string
relative to `datetime.now()`, so the age of a string is an uninterpreted
parameter `ageOf`; on a non-string the `.replace` call raises inside the bare
`try/except`, which returns 0. -/
def calcAgeJ (ageOf : String → Int) : JVal → Int
  | .str s => ageOf s
  | _ => 0

/-- One iteration of the `Patient` scan of `_identify_risk_factors`: the
age-based factors contributed by one entry of `patient_data["entry"]`
(zero or one string). -/
def ageRiskEntryFactors (ageOf : String → Int) (entry : JVal) :
    Except PyError (List String) :=
  match entry with
  | .obj efields =>
    match (jLookup efields "resource").getD (.obj []) with
    | .obj rfields =>
      if jEqStr ((jLookup rfields "resourceType").getD .null) "Patient" then
        let birth := (jLookup rfields "birthDate").getD .null
        if pyTruthy birth then
          let age := calcAgeJ ageOf birth
          if age > 65 then .ok ["Advanced age (>65 years)"]
          else if age > 50 then .ok ["Middle age (50-65 years)"]
          else .ok []
        else .ok []
      else .ok []
    | _ => .error .attributeError
  | _ => .error .attributeError

/-- The age-based part of `_identify_risk_factors` (the scan of the `"entry"`
list for `Patient` resources), appending factors in entry order. -/
def age_risk_factors (ageOf : String → Int) (entries : List JVal) :
    Except PyError (List String) :=
  (entries.mapM (ageRiskEntryFactors ageOf)).map List.flatten

/-- `_identify_risk_factors`: age-based factors from the patient record,
followed by the per-finding if/elif chain. -/
def identify_risk_factors (ageOf : String → Int) (patient_data : List (String × JVal))
    (clinical_findings : List ClinicalFinding) : Except PyError (List String) := do
  let ageFactors ←
    match jLookup patient_data "entry" with
    | none => pure []
    | some entriesVal => do
        let entries ← jIterItems entriesVal
        age_risk_factors ageOf entries
  pure (ageFactors ++ clinical_findings.flatMap risk_factor_for_finding)

/-- `_identify_contraindications` (static text). -/
def identify_contraindications (patient_data : List (String × JVal))
    (differential_diagnoses : List Diagnosis) : List String :=
  ["Verify drug allergies before prescribing", "Check for drug interactions"]

/-! ## The full pipeline (`generate_assessment`) -/

/-- `AssessmentResult` pydantic model. -/
structure AssessmentResult where
  primary_diagnosis : Option Diagnosis
  differential_diagnoses : List Diagnosis
  clinical_findings : List ClinicalFinding
  confidence_score : ℚ
  urgency_level : UrgencyLevel
  radiology_analysis : Option RadiologyAnalysis
  risk_factors : List String
  follow_up_required : Bool
  follow_up_timeline : Option String
  treatment_recommendations : List String
  monitoring_requirements : List String
  contraindications : List String
  red_flags : List String

/-- The `if radiology_analysis:` extension step of `generate_assessment`
(`None` and the empty list are falsy and contribute no findings). -/
def radiologyStep (radiology_analysis : Option (List RadiologyAnalysis)) :
    Except PyError (List ClinicalFinding) :=
  match radiology_analysis with
  | some ras => if !ras.isEmpty then extract_radiology_findings ras else pure []
  | none => pure []

/-- `generate_assessment` (the `assessment_type` argument is never read by the
source and is omitted; the surrounding `try/except` logs and re-raises, so the
propagated error is unchanged). -/
def generate_assessment (ageOf : String → Int) (patient_data : List (String × JVal))
    (radiology_analysis : Option (List RadiologyAnalysis)) :
    Except PyError AssessmentResult := do
  let base ← extract_clinical_findings patient_data
  let radiology_findings ← radiologyStep radiology_analysis
  let clinical_findings := base ++ radiology_findings
  let differential_diagnoses := generate_differential_diagnoses clinical_findings
  let primary_diagnosis := determine_primary_diagnosis differential_diagnoses
  let confidence_score := calculate_confidence_score clinical_findings differential_diagnoses
  let urgency_level := determine_urgency_level clinical_findings differential_diagnoses
  let risk_factors ← identify_risk_factors ageOf patient_data clinical_findings
  let followUp := determine_follow_up differential_diagnoses urgency_level
  pure { primary_diagnosis := primary_diagnosis
         differential_diagnoses := differential_diagnoses
         clinical_findings := clinical_findings
         confidence_score := confidence_score
         urgency_level := urgency_level
         radiology_analysis :=
           (match radiology_analysis with
            | some (r :: _) => some r
            | _ => none)
         risk_factors := risk_factors
         follow_up_required := followUp.1
         follow_up_timeline := followUp.2
         treatment_recommendations :=
           generate_treatment_recommendations differential_diagnoses clinical_findings
         monitoring_requirements :=
           generate_monitoring_requirements differential_diagnoses urgency_level
         contraindications := identify_contraindications patient_data differential_diagnoses
         red_flags := identify_red_flags clinical_findings differential_diagnoses }

/-! ## Helper lemmas -/

/-- The `matching_findings` loop counts exactly the findings kept by a filter. -/
theorem countMatchingFindings_foldl (p : ClinicalFinding → Bool) (fs : List ClinicalFinding)
    (n : Nat) :
    fs.foldl (fun m f => if p f then m + 1 else m) n = n + (fs.filter p).length := by
  induction fs generalizing n with
  | nil => simp
  | cons f rest ih =>
    by_cases hp : p f
    · simp [List.foldl_cons, hp, ih, List.filter_cons, Nat.add_assoc, Nat.add_comm 1]
    · simp [List.foldl_cons, hp, ih, List.filter_cons]

/-- `countMatchingFindings` as a filter length. -/
theorem countMatchingFindings_eq_length_filter (fs : List ClinicalFinding) (code : String) :
    countMatchingFindings fs code =
      (fs.filter (fun f => f.icd10_codes.contains code)).length := by
  simpa [countMatchingFindings] using
    countMatchingFindings_foldl (fun f => f.icd10_codes.contains code) fs 0

/-- A prefix of `h` is also a prefix of `h ++ suf`. -/
theorem isPrefixL_append (n h suf : List Char) (hp : isPrefixL n h = true) :
    isPrefixL n (h ++ suf) = true := by
  induction n generalizing h with
  | nil => simp [isPrefixL]
  | cons a as ih =>
    cases h with
    | nil => simp [isPrefixL] at hp
    | cons b bs =>
      simp only [isPrefixL, Bool.and_eq_true] at hp
      simp [isPrefixL, hp.1, ih bs hp.2]

/-- Substring containment survives prepending text. -/
theorem containsL_append_left (n pre h : List Char) (hc : containsL n h = true) :
    containsL n (pre ++ h) = true := by
  induction pre with
  | nil => simpa using hc
  | cons c cs ih => simp [containsL, ih]

/-- Substring containment survives appending text. -/
theorem containsL_append_right (n h suf : List Char) (hc : containsL n h = true) :
    containsL n (h ++ suf) = true := by
  induction h with
  | nil =>
    simp only [containsL] at hc
    cases n with
    | nil => cases suf <;> simp [containsL, isPrefixL]
    | cons a as => simp [isPrefixL] at hc
  | cons b bs ih =>
    simp only [containsL, Bool.or_eq_true] at hc
    rcases hc with hp | hc
    · have h2 := isPrefixL_append n (b :: bs) suf hp
      simp only [List.cons_append] at h2
      simp [containsL, h2]
    · simp [containsL, ih hc]

/-- A phrase contained in one element of a list is contained in its
space-join. -/
theorem strContains_joinSp_of_mem (l : List String) (d p : String) (hd : d ∈ l)
    (hc : strContains d p = true) : strContains (joinSp l) p = true := by
  induction l with
  | nil => cases hd
  | cons s rest ih =>
    rcases List.mem_cons.mp hd with rfl | hmem
    · cases rest with
      | nil => simpa [joinSp] using hc
      | cons t ts =>
        show containsL p.data ((d ++ " " ++ joinSp (t :: ts)).data) = true
        rw [show d ++ " " ++ joinSp (t :: ts) = d ++ (" " ++ joinSp (t :: ts)) by
          simp [String.append_assoc]]
        rw [String.data_append]
        exact containsL_append_right _ _ _ hc
    · cases rest with
      | nil => cases hmem
      | cons t ts =>
        show containsL p.data ((s ++ " " ++ joinSp (t :: ts)).data) = true
        rw [show s ++ " " ++ joinSp (t :: ts) = (s ++ " ") ++ joinSp (t :: ts) by
          simp [String.append_assoc]]
        rw [String.data_append]
        exact containsL_append_left _ _ _ (ih hmem)

/-! ## Claim C5 -/

/-- C5: for every finding list and candidate code, the diagnosis confidence
equals `min(0.9, 0.5 + 0.1 × count of findings whose icd10_codes contain the
code)`, and the probability is computed by the same formula, hence always
equals the confidence. -/
theorem c5_confidence_probability_formula (clinical_findings : List ClinicalFinding)
    (icd10_code : String) :
    calculate_diagnosis_confidence clinical_findings icd10_code =
      min (9/10 : ℚ) (1/2 + ((clinical_findings.filter
        (fun f => f.icd10_codes.contains icd10_code)).length : ℚ) * (1/10))
    ∧ calculate_diagnosis_probability clinical_findings icd10_code =
      calculate_diagnosis_confidence clinical_findings icd10_code := by
  refine ⟨?_, rfl⟩
  unfold calculate_diagnosis_confidence
  rw [countMatchingFindings_eq_length_filter]
  split
  · next hE =>
    rw [List.isEmpty_iff] at hE
    subst hE
    simp only [List.filter_nil, List.length_nil, Nat.cast_zero, zero_mul, add_zero]
    norm_num [min_def]
  · rfl

/-! ## Claim C7 -/

/-- Membership in `findRelatedCodes`, characterised for tables without
duplicate codes. -/
theorem mem_findRelatedCodes_iff {table : List CodeEntry} {text : String} {e : CodeEntry}
    (hnd : (table.map (fun x => x.code)).Nodup) (he : e ∈ table) :
    e.code ∈ findRelatedCodes table text ↔
      ∃ tok ∈ splitWs (lowerStr e.name), strContains (lowerStr text) tok = true := by
  unfold findRelatedCodes
  rw [List.mem_filterMap]
  constructor
  · rintro ⟨a, ha, hfa⟩
    by_cases hcond :
        (splitWs (lowerStr a.name)).any (fun keyword => strContains (lowerStr text) keyword) = true
    · rw [if_pos hcond, Option.some_inj] at hfa
      have : a = e := List.inj_on_of_nodup_map hnd ha he hfa
      subst this
      exact List.any_eq_true.mp hcond
    · rw [if_neg hcond] at hfa
      cases hfa
  · intro hex
    refine ⟨e, he, ?_⟩
    rw [if_pos (List.any_eq_true.mpr hex)]

/-- C7: a table entry's code is returned by the code lookup iff some
whitespace token of the entry's lowercased display name occurs as a substring
of the lowercased text; in particular, lookup of "chest pain" against the
SNOMED table includes code 225358003 ("Chest pain"). -/
theorem c7_code_lookup_iff :
    (∀ (table : List CodeEntry) (text : String) (e : CodeEntry),
      (table.map (fun x => x.code)).Nodup → e ∈ table →
      (e.code ∈ findRelatedCodes table text ↔
        ∃ tok ∈ splitWs (lowerStr e.name), strContains (lowerStr text) tok = true))
    ∧ "225358003" ∈ find_related_snomed_codes "chest pain" := by
  refine ⟨fun table text e hnd he => mem_findRelatedCodes_iff hnd he, ?_⟩
  decide

/-- Concrete instance of C7: "R50.9" is found for the text "fever, chills"
because the token "fever," of "Fever, unspecified" occurs in it. -/
theorem c7_code_lookup_iff_witness :
    "R50.9" ∈ findRelatedCodes icd10_codes "fever, chills" :=
  (c7_code_lookup_iff.1 icd10_codes "fever, chills"
      ⟨"R50.9", "Fever, unspecified", "symptoms"⟩ (by decide) (by decide)).mpr
    ⟨"fever,", by decide, by decide⟩

/-! ## Claim C9 -/

/-- The urgency computation never yields `critical`. -/
theorem determine_urgency_level_ne_critical (fs : List ClinicalFinding) (d : List Diagnosis) :
    determine_urgency_level fs d ≠ UrgencyLevel.critical := by
  dsimp only [determine_urgency_level]
  split
  · simp
  · split
    · simp
    · simp

/-- C9: the urgency level depends only on the description sequence of the
findings (not on the differential-diagnoses argument or any other finding
field), and it is never `critical`. -/
theorem c9_urgency_noninterference (fs1 fs2 : List ClinicalFinding)
    (d1 d2 : List Diagnosis)
    (h : fs1.map (fun f => f.description) = fs2.map (fun f => f.description)) :
    determine_urgency_level fs1 d1 = determine_urgency_level fs2 d2
    ∧ determine_urgency_level fs1 d1 ≠ UrgencyLevel.critical := by
  have hall : fs1.map (fun f => lowerStr f.description)
      = fs2.map (fun f => lowerStr f.description) := by
    have h2 := congrArg (List.map lowerStr) h
    simpa [List.map_map, Function.comp] using h2
  exact ⟨by unfold determine_urgency_level; rw [hall],
    determine_urgency_level_ne_critical fs1 d1⟩

/-- Concrete instance of C9: two finding lists with the same descriptions but
different types, confidences, sources, codes and differential lists give the
same urgency. -/
theorem c9_urgency_noninterference_witness :
    determine_urgency_level
        [⟨.symptom, "severe cough", 4/5, "anamnesis", [], []⟩] []
      = determine_urgency_level
        [⟨.imaging, "severe cough", 1/2, "radiology_ct", ["J44.1"], ["267036007"]⟩]
        [⟨"J44.1", "x", 1/2, [], 1/2, 1⟩]
    ∧ determine_urgency_level
        [⟨.symptom, "severe cough", 4/5, "anamnesis", [], []⟩] [] ≠ UrgencyLevel.critical :=
  c9_urgency_noninterference _ _ _ _ rfl

/-! ## Claim C2 -/

/-- Successful `mapM` over `Except`: every output element comes from some
input element. -/
theorem mapM_ok_mem {α β : Type} (f : α → Except PyError β) :
    ∀ (l : List α) (bs : List β), l.mapM f = .ok bs → ∀ b ∈ bs, ∃ a ∈ l, f a = .ok b := by
  intro l
  induction l with
  | nil =>
    intro bs h b hb
    simp only [List.mapM_nil, pure, Except.pure, Except.ok.injEq] at h
    subst h
    cases hb
  | cons a as ih =>
    intro bs h b hb
    rw [List.mapM_cons] at h
    cases hfa : f a with
    | error e => rw [hfa] at h; simp [bind, Except.bind] at h
    | ok b0 =>
      rw [hfa] at h
      simp only [bind, Except.bind] at h
      cases hrest : as.mapM f with
      | error e => rw [hrest] at h; simp [bind, Except.bind] at h
      | ok bs0 =>
        rw [hrest] at h
        simp only [bind, Except.bind, pure, Except.pure, Except.ok.injEq] at h
        subst h
        rcases List.mem_cons.mp hb with rfl | hb0
        · exact ⟨a, List.mem_cons_self a as, hfa⟩
        · obtain ⟨a0, ha0, hfa0⟩ := ih bs0 hrest b hb0
          exact ⟨a0, List.mem_cons_of_mem a ha0, hfa0⟩

/-- The per-entry age factors are always among the two fixed age strings. -/
theorem ageRiskEntryFactors_spec (ageOf : String → Int) (entry : JVal) (l : List String)
    (h : ageRiskEntryFactors ageOf entry = .ok l) :
    ∀ x ∈ l, x = "Advanced age (>65 years)" ∨ x = "Middle age (50-65 years)" := by
  unfold ageRiskEntryFactors at h
  dsimp only at h
  repeat' split at h
  all_goals try (injection h with h2; subst h2)
  all_goals simp_all

/-- The age-based part of the risk factors only produces the two fixed age
strings. -/
theorem age_risk_factors_spec (ageOf : String → Int) (entries : List JVal) (rfs : List String)
    (h : age_risk_factors ageOf entries = .ok rfs) :
    ∀ x ∈ rfs, x = "Advanced age (>65 years)" ∨ x = "Middle age (50-65 years)" := by
  unfold age_risk_factors at h
  cases hm : entries.mapM (ageRiskEntryFactors ageOf) with
  | error e => rw [hm] at h; simp [Except.map] at h
  | ok ls =>
    rw [hm] at h
    simp only [Except.map, Except.ok.injEq] at h
    subst h
    intro x hx
    obtain ⟨l, hl, hxl⟩ := List.mem_flatten.mp hx
    obtain ⟨a, ha, hfa⟩ := mapM_ok_mem (ageRiskEntryFactors ageOf) entries ls hm l hl
    exact ageRiskEntryFactors_spec ageOf a l hfa x hxl

/-- `identify_risk_factors` splits into the age part and the per-finding part. -/
theorem identify_risk_factors_split (ageOf : String → Int)
    (patient_data : List (String × JVal)) (clinical_findings : List ClinicalFinding)
    (rfs : List String)
    (h : identify_risk_factors ageOf patient_data clinical_findings = .ok rfs) :
    ∃ af, rfs = af ++ clinical_findings.flatMap risk_factor_for_finding
      ∧ ∀ x ∈ af, x = "Advanced age (>65 years)" ∨ x = "Middle age (50-65 years)" := by
  unfold identify_risk_factors at h
  rcases hlk : jLookup patient_data "entry" with _ | entriesVal
  · rw [hlk] at h
    simp only [bind, Except.bind, pure, Except.pure, Except.ok.injEq] at h
    exact ⟨[], by simp [← h], by simp⟩
  · rw [hlk] at h
    dsimp only at h
    cases hit : jIterItems entriesVal with
    | error e => rw [hit] at h; simp [bind, Except.bind] at h
    | ok entries =>
      rw [hit] at h
      simp only [bind, Except.bind] at h
      cases haf : age_risk_factors ageOf entries with
      | error e => rw [haf] at h; simp [bind, Except.bind] at h
      | ok af =>
        rw [haf] at h
        simp only [bind, Except.bind, pure, Except.pure, Except.ok.injEq] at h
        exact ⟨af, h.symm, age_risk_factors_spec ageOf entries af haf⟩

/-- Membership of the hypertension factor in the per-finding if/elif chain. -/
theorem hypertension_mem_risk_factor_iff (f : ClinicalFinding) :
    "Hypertension" ∈ risk_factor_for_finding f ↔
      (strContains (lowerStr f.description) "hypertension" = true
        ∧ strContains (lowerStr f.description) "diabetes" = false) := by
  unfold risk_factor_for_finding
  split
  · next hd => simp_all
  · next hd =>
    split
    · next hh => simp_all
    · next hh =>
      split
      · simp_all
      · simp_all

/-- The concrete finding of the spec's Scenario C. -/
def c2Finding : ClinicalFinding :=
  ⟨.sign, "patient has diabetes and hypertension", 9/10, "existing_diagnosis", [""], []⟩

/-- C2 counterexample: for the one-finding list whose description is
"patient has diabetes and hypertension", the risk-factor derivation yields
exactly ["Diabetes mellitus"]; no hypertension-class entry is present. -/
theorem c2_counterexample :
    identify_risk_factors (fun _ => 0) [] [c2Finding] = .ok ["Diabetes mellitus"]
    ∧ "Hypertension" ∉ ["Diabetes mellitus"] :=
  ⟨rfl, by decide⟩

/-- C2 (amended): a finding described "patient has diabetes and hypertension"
contributes only the diabetes-class factor (the checks form an if/elif chain
with "diabetes" first); a hypertension-class entry appears iff some finding
mentions "hypertension" without "diabetes". -/
theorem c2_amended_risk_factors (ageOf : String → Int)
    (patient_data : List (String × JVal)) (clinical_findings : List ClinicalFinding)
    (rfs : List String)
    (h : identify_risk_factors ageOf patient_data clinical_findings = .ok rfs)
    (hex : ∃ f ∈ clinical_findings, f.description = "patient has diabetes and hypertension") :
    "Diabetes mellitus" ∈ rfs
    ∧ ("Hypertension" ∈ rfs ↔ ∃ f ∈ clinical_findings,
        strContains (lowerStr f.description) "hypertension" = true
        ∧ strContains (lowerStr f.description) "diabetes" = false) := by
  obtain ⟨af, rfl, haf⟩ := identify_risk_factors_split ageOf patient_data clinical_findings rfs h
  obtain ⟨f, hf, hdesc⟩ := hex
  constructor
  · apply List.mem_append_right
    rw [List.mem_flatMap]
    refine ⟨f, hf, ?_⟩
    unfold risk_factor_for_finding
    rw [hdesc]
    rw [if_pos (by decide)]
    simp
  · constructor
    · intro hmem
      rcases List.mem_append.mp hmem with hina | hinc
      · rcases haf _ hina with h1 | h1 <;> simp at h1
      · obtain ⟨g, hg, hgmem⟩ := List.mem_flatMap.mp hinc
        exact ⟨g, hg, (hypertension_mem_risk_factor_iff g).mp hgmem⟩
    · rintro ⟨g, hg, hcond⟩
      apply List.mem_append_right
      rw [List.mem_flatMap]
      exact ⟨g, hg, (hypertension_mem_risk_factor_iff g).mpr hcond⟩

/-- Concrete instance of the amended C2 at the Scenario C finding list. -/
theorem c2_amended_risk_factors_witness :
    "Diabetes mellitus" ∈ ["Diabetes mellitus"]
    ∧ ("Hypertension" ∈ ["Diabetes mellitus"] ↔ ∃ f ∈ [c2Finding],
        strContains (lowerStr f.description) "hypertension" = true
        ∧ strContains (lowerStr f.description) "diabetes" = false) :=
  c2_amended_risk_factors (fun _ => 0) [] [c2Finding] ["Diabetes mellitus"] rfl
    ⟨c2Finding, by simp, rfl⟩

/-! ## Claim C10 -/

/-- The finding produced for a `Condition` entry carrying no `code.coding`
information (both `.get` defaults fire, so `code_info` is the empty dict). -/
def unknownConditionFinding : ClinicalFinding :=
  ⟨.sign, "Unknown condition", 9/10, "existing_diagnosis", [""], []⟩

/-- A patient-record entry that is a `Condition` resource with no
`code.coding` information: either no `code` at all, or a `code` dict without
a `coding` key. -/
def conditionNoCoding (entry : JVal) : Prop :=
  ∃ efields rfields, entry = .obj efields
    ∧ jLookup efields "resource" = some (.obj rfields)
    ∧ jLookup rfields "resourceType" = some (.str "Condition")
    ∧ (jLookup rfields "code" = none
       ∨ ∃ cfields, jLookup rfields "code" = some (.obj cfields)
           ∧ jLookup cfields "coding" = none)

/-- The `""` code of the unknown-condition finding never matches a code of the
static ICD-10 table. -/
theorem unknownConditionFinding_no_code_match (e : CodeEntry) (he : e ∈ icd10_codes) :
    e.code ∉ unknownConditionFinding.icd10_codes := by
  fin_cases he <;> decide

/-- C10: a `Condition` entry with no `code.coding` information still yields
the finding ⟨sign, "Unknown condition", 0.9, "existing_diagnosis", [""], []⟩,
and since "" is not an ICD-10 table code this finding never contributes to
any diagnosis's confidence or evidence. -/
theorem c10_unknown_condition :
    (∀ entry, conditionNoCoding entry → processEntry entry = .ok [unknownConditionFinding])
    ∧ (∀ (fs1 fs2 : List ClinicalFinding) (e : CodeEntry), e ∈ icd10_codes →
        calculate_diagnosis_confidence (fs1 ++ unknownConditionFinding :: fs2) e.code
          = calculate_diagnosis_confidence (fs1 ++ fs2) e.code
        ∧ generate_evidence (fs1 ++ unknownConditionFinding :: fs2) e.code
          = generate_evidence (fs1 ++ fs2) e.code) := by
  constructor
  · rintro entry ⟨efields, rfields, rfl, hres, hrt, hcode⟩
    have hsnomed : find_related_snomed_codes "" = [] := rfl
    have hd1 : jLookup ([] : List (String × JVal)) "display" = none := rfl
    have hd2 : jLookup ([] : List (String × JVal)) "code" = none := rfl
    have hd3 : jLookup ([] : List (String × JVal)) "coding" = none := rfl
    rcases hcode with hnone | ⟨cfields, hsome, hcoding⟩
    · simp [processEntry, conditionFinding, hres, hrt, hnone, hd1, hd2, hd3, jEqStr, jGetD,
        jIndex0, pyStr, pyStrField, bind, Except.bind, pure, Except.pure,
        unknownConditionFinding, hsnomed]
    · simp [processEntry, conditionFinding, hres, hrt, hsome, hcoding, hd1, hd2, hd3, jEqStr, jGetD,
        jIndex0, pyStr, pyStrField, bind, Except.bind, pure, Except.pure,
        unknownConditionFinding, hsnomed]
  · intro fs1 fs2 e he
    have hnm : e.code ∉ unknownConditionFinding.icd10_codes :=
      unknownConditionFinding_no_code_match e he
    constructor
    · unfold calculate_diagnosis_confidence
      rw [countMatchingFindings_eq_length_filter, countMatchingFindings_eq_length_filter]
      rw [List.filter_append, List.filter_append, List.filter_cons_of_neg (by simpa using hnm)]
      by_cases hemp : fs1 ++ fs2 = []
      · rw [List.append_eq_nil] at hemp
        obtain ⟨rfl, rfl⟩ := hemp
        norm_num [min_def]
      · have h1 : (fs1 ++ unknownConditionFinding :: fs2).isEmpty = false := by
          simp [List.isEmpty_eq_false_iff_exists_mem]
        have h2 : (fs1 ++ fs2).isEmpty = false := by
          simp only [List.isEmpty_eq_false_iff_exists_mem]
          rcases List.exists_mem_of_ne_nil _ hemp with ⟨x, hx⟩
          exact ⟨x, hx⟩
        rw [h1, h2]
    · unfold generate_evidence
      rw [List.filterMap_append, List.filterMap_append, List.filterMap_cons]
      rw [if_neg (by simpa using hnm)]

/-- Concrete instance of C10: a minimal `Condition` entry without a `code`
key, and the unmatched confidence at the first table code. -/
theorem c10_unknown_condition_witness :
    processEntry (.obj [("resource", .obj [("resourceType", .str "Condition")])])
      = .ok [unknownConditionFinding]
    ∧ calculate_diagnosis_confidence ([] ++ unknownConditionFinding :: []) "I25.9"
      = calculate_diagnosis_confidence ([] ++ []) "I25.9" :=
  ⟨c10_unknown_condition.1 _ ⟨_, _, rfl, rfl, rfl, Or.inl rfl⟩,
   (c10_unknown_condition.2 [] []
     ⟨"I25.9", "Chronic ischemic heart disease, unspecified", "cardiovascular"⟩
     (by simp [icd10_codes])).1⟩

/-! ## Claim C4 -/

/-- A finding whose description is only "chest". -/
def c4FindingChest : ClinicalFinding := ⟨.symptom, "chest", 4/5, "anamnesis", [], []⟩

/-- A finding whose description is only "pain". -/
def c4FindingPain : ClinicalFinding := ⟨.symptom, "pain", 4/5, "anamnesis", [], []⟩

/-- C4 counterexample: permuting the findings ["chest", "pain"] changes the
candidate codes of the rule-matching stage from the chest-pain rule's
differential to nothing, because the trigger phrase "chest pain" only occurs
across the space-join boundary in one of the two orders. -/
theorem c4_counterexample :
    [c4FindingChest, c4FindingPain].Perm [c4FindingPain, c4FindingChest]
    ∧ triggeredCodes (findingsBlob [c4FindingChest, c4FindingPain]) = ["I25.9", "J44.1", "R50.9"]
    ∧ triggeredCodes (findingsBlob [c4FindingPain, c4FindingChest]) = [] :=
  ⟨List.Perm.swap c4FindingPain c4FindingChest [], rfl, rfl⟩

/-- C4 (amended): rule matching is permutation-invariant at the granularity of
single descriptions: if some trigger phrase of a rule occurs inside one
finding's description, the rule triggers on the blob of every permutation of
the list. (In general blob matching is not order-independent: a phrase can
span the boundary between adjacent descriptions, see the counterexample.) -/
theorem c4_amended_per_description_invariance (l1 l2 : List ClinicalFinding)
    (hp : l1.Perm l2) (rule : DiagnosticRule) (hr : rule ∈ allRules)
    (hphrase : ∃ phrase ∈ rule.conditions, ∃ f ∈ l1,
        strContains (lowerStr f.description) phrase = true) :
    ruleTriggers (findingsBlob l1) rule = true
    ∧ ruleTriggers (findingsBlob l2) rule = true := by
  obtain ⟨phrase, hpc, f, hf, hcf⟩ := hphrase
  constructor
  · apply List.any_eq_true.mpr
    refine ⟨phrase, hpc, ?_⟩
    exact strContains_joinSp_of_mem _ (lowerStr f.description) phrase
      (List.mem_map_of_mem _ hf) hcf
  · apply List.any_eq_true.mpr
    refine ⟨phrase, hpc, ?_⟩
    exact strContains_joinSp_of_mem _ (lowerStr f.description) phrase
      (List.mem_map_of_mem _ (hp.mem_iff.mp hf)) hcf

/-- The chest-pain rule of the static table. -/
def chestPainRule : DiagnosticRule :=
  ⟨["chest pain", "chest discomfort"], ["I25.9", "J44.1", "R50.9"],
   "high", ["ECG", "chest X-ray", "troponin"]⟩

/-- Concrete instance of the amended C4: a whole-phrase finding triggers the
chest-pain rule in both orders of a two-element list. -/
theorem c4_amended_per_description_invariance_witness :
    ruleTriggers (findingsBlob
      [⟨.symptom, "has chest pain", 4/5, "anamnesis", [], []⟩, c4FindingChest]) chestPainRule = true
    ∧ ruleTriggers (findingsBlob
      [c4FindingChest, ⟨.symptom, "has chest pain", 4/5, "anamnesis", [], []⟩]) chestPainRule = true :=
  c4_amended_per_description_invariance _ _
    (List.Perm.swap c4FindingChest ⟨.symptom, "has chest pain", 4/5, "anamnesis", [], []⟩ [])
    chestPainRule (by simp [allRules, diagnostic_rules, chestPainRule])
    ⟨"chest pain", by simp [chestPainRule],
     ⟨.symptom, "has chest pain", 4/5, "anamnesis", [], []⟩, by simp, by decide⟩

/-! ## Claim C8 -/

/-- The shortness-of-breath rule of the static table. -/
def shortnessBreathRule : DiagnosticRule :=
  ⟨["dyspnea", "shortness of breath", "breathing difficulty"], ["J44.1", "I25.9", "C78.00"],
   "high", ["chest X-ray", "ABG", "pulse oximetry"]⟩

/-- The fever rule of the static table. -/
def feverRule : DiagnosticRule :=
  ⟨["fever", "elevated temperature", "pyrexia"], ["R50.9", "J44.1", "K21.9"],
   "medium", ["blood culture", "CBC", "chest X-ray"]⟩

/-- The flattened rule table. -/
theorem allRules_eq : allRules = [chestPainRule, shortnessBreathRule, feverRule] := rfl

/-- C8: when the joined lowercase blob contains "chest pain" and no other
trigger phrase of the rule table, the differential list consists of the codes
I25.9, J44.1, R50.9 in some order, the urgency is HIGH, and follow-up is
(required, "24-48 hours"). -/
theorem c8_chest_pain_only (fs : List ClinicalFinding)
    (h1 : strContains (findingsBlob fs) "chest pain" = true)
    (h2 : ∀ rule ∈ allRules, ∀ phrase ∈ rule.conditions,
        phrase ≠ "chest pain" → strContains (findingsBlob fs) phrase = false) :
    ((generate_differential_diagnoses fs).map (fun d => d.code)).Perm
      ["I25.9", "J44.1", "R50.9"]
    ∧ determine_urgency_level fs (generate_differential_diagnoses fs) = UrgencyLevel.high
    ∧ determine_follow_up (generate_differential_diagnoses fs)
        (determine_urgency_level fs (generate_differential_diagnoses fs))
      = (true, some "24-48 hours") := by
  have hcp : ruleTriggers (findingsBlob fs) chestPainRule = true := by
    unfold ruleTriggers chestPainRule
    simp only [List.any_cons, List.any_nil, Bool.or_false]
    rw [h1]
    simp
  have hsb : ruleTriggers (findingsBlob fs) shortnessBreathRule = false := by
    unfold ruleTriggers shortnessBreathRule
    simp only [List.any_cons, List.any_nil, Bool.or_false]
    rw [h2 shortnessBreathRule (by rw [allRules_eq]; simp) "dyspnea" (by simp [shortnessBreathRule])
        (by decide),
      h2 shortnessBreathRule (by rw [allRules_eq]; simp) "shortness of breath"
        (by simp [shortnessBreathRule]) (by decide),
      h2 shortnessBreathRule (by rw [allRules_eq]; simp) "breathing difficulty"
        (by simp [shortnessBreathRule]) (by decide)]
    simp
  have hfv : ruleTriggers (findingsBlob fs) feverRule = false := by
    unfold ruleTriggers feverRule
    simp only [List.any_cons, List.any_nil, Bool.or_false]
    rw [h2 feverRule (by rw [allRules_eq]; simp) "fever" (by simp [feverRule]) (by decide),
      h2 feverRule (by rw [allRules_eq]; simp) "elevated temperature" (by simp [feverRule])
        (by decide),
      h2 feverRule (by rw [allRules_eq]; simp) "pyrexia" (by simp [feverRule]) (by decide)]
    simp
  have hfilter : ["I25.9", "J44.1", "R50.9"].filter
      (fun c => (lookupEntry icd10_codes c).isSome) = ["I25.9", "J44.1", "R50.9"] := rfl
  have htrig : triggeredCodes (findingsBlob fs) = ["I25.9", "J44.1", "R50.9"] := by
    rw [triggeredCodes, allRules_eq]
    simp only [List.flatMap_cons, List.flatMap_nil, hcp, hsb, hfv, if_true,
      Bool.false_eq_true, if_false, List.append_nil, List.nil_append]
    rw [chestPainRule]
    exact hfilter
  have hurg : determine_urgency_level fs (generate_differential_diagnoses fs)
      = UrgencyLevel.high := by
    have h1j : strContains (joinSp (fs.map fun f => lowerStr f.description)) "chest pain"
        = true := h1
    have hany : (high_urgency_keywords.any
        (fun keyword => strContains (joinSp (fs.map fun f => lowerStr f.description)) keyword))
        = true :=
      List.any_eq_true.mpr ⟨"chest pain", by simp [high_urgency_keywords], h1j⟩
    dsimp only [determine_urgency_level]
    rw [hany]
    simp
  refine ⟨?_, hurg, ?_⟩
  · unfold generate_differential_diagnoses
    dsimp only
    rw [htrig]
    have hperm := List.perm_insertionSort diagSortLe
      ((["I25.9", "J44.1", "R50.9"].enum).map (mkDiagnosis fs))
    have hlen : (List.insertionSort diagSortLe
        ((["I25.9", "J44.1", "R50.9"].enum).map (mkDiagnosis fs))).length ≤ 5 := by
      rw [hperm.length_eq]
      simp [List.enum]
    rw [List.take_of_length_le hlen]
    have hmap := hperm.map (fun d => d.code)
    refine hmap.trans ?_
    simp [List.enum, List.enumFrom, mkDiagnosis]
  · rw [hurg]
    rfl

/-- The single chest-pain finding of the spec's Scenario A. -/
def c8Findings : List ClinicalFinding := [⟨.symptom, "chest pain", 4/5, "anamnesis", [], []⟩]

/-- Concrete instance of C8 at a single "chest pain" finding. -/
theorem c8_chest_pain_only_witness :
    ((generate_differential_diagnoses c8Findings).map (fun d => d.code)).Perm
      ["I25.9", "J44.1", "R50.9"]
    ∧ determine_urgency_level c8Findings (generate_differential_diagnoses c8Findings)
      = UrgencyLevel.high
    ∧ determine_follow_up (generate_differential_diagnoses c8Findings)
        (determine_urgency_level c8Findings (generate_differential_diagnoses c8Findings))
      = (true, some "24-48 hours") :=
  c8_chest_pain_only c8Findings (by decide) (by decide)

/-! ## Claim C3 -/

/-- A field value that pydantic/`str.lower()` can treat as a string: absent or
an actual string. -/
def wfStrOpt : Option JVal → Bool
  | none => true
  | some (.str _) => true
  | some _ => false

/-- Well-shapedness of the `code` value of a `Condition` resource: the read
`resource.get("code", {}).get("coding", [{}])[0]` plus the `display`/`code`
accesses succeed. -/
def wfConditionCode : Option JVal → Bool
  | none => true
  | some (.obj cfields) =>
    (match jLookup cfields "coding" with
     | none => true
     | some (.arr (.obj cf2 :: _)) =>
         wfStrOpt (jLookup cf2 "display") && wfStrOpt (jLookup cf2 "code")
     | some _ => false)
  | some _ => false

/-- Well-shapedness of one `resource` value for the extractor and the
risk-factor scan. -/
def wfResource : JVal → Bool
  | .obj rfields =>
    if jEqStr ((jLookup rfields "resourceType").getD .null) "Observation" then
      wfStrOpt (jLookup rfields "valueString")
    else if jEqStr ((jLookup rfields "resourceType").getD .null) "Condition" then
      wfConditionCode (jLookup rfields "code")
    else true
  | _ => false

/-- Well-shapedness of one element of `patient_data["entry"]`: it must be a
mapping and its `resource` must be well-shaped. -/
def wfEntry : JVal → Bool
  | .obj efields => wfResource ((jLookup efields "resource").getD (.obj []))
  | _ => false

/-- Well-shapedness of the whole `patient_data["entry"]` value: a list of
well-shaped entries (an empty string or empty dict also iterates to nothing). -/
def wfEntries : JVal → Bool
  | .arr items => items.all wfEntry
  | .str s => s.isEmpty
  | .obj fields => fields.isEmpty
  | _ => false

/-- Structural validity of a patient record for the pipeline: the `entry`
key, when present, holds well-shaped entries. -/
def wellFormedPatientData (patient_data : List (String × JVal)) : Bool :=
  match jLookup patient_data "entry" with
  | none => true
  | some v => wfEntries v

/-- A structurally invalid record: `entry` holds a non-mapping item. -/
def badPatientData : List (String × JVal) := [("entry", .arr [.int 42])]

/-- Inverting `wfStrOpt`. -/
theorem wfStrOpt_cases (o : Option JVal) (h : wfStrOpt o = true) :
    o = none ∨ ∃ s, o = some (.str s) := by
  match o with
  | none => exact Or.inl rfl
  | some (.str s) => exact Or.inr ⟨s, rfl⟩
  | some .null | some (.bool _) | some (.int _) | some (.arr _) | some (.obj _) =>
    simp [wfStrOpt] at h

/-- A well-shaped `Condition` code never makes `conditionFinding` fail. -/
theorem conditionFinding_isOk_of_wf (rfields : List (String × JVal))
    (h : wfConditionCode (jLookup rfields "code") = true) :
    (conditionFinding rfields).isOk = true := by
  unfold wfConditionCode at h
  have hd1 : jLookup ([] : List (String × JVal)) "display" = none := rfl
  have hd2 : jLookup ([] : List (String × JVal)) "code" = none := rfl
  have hd3 : jLookup ([] : List (String × JVal)) "coding" = none := rfl
  cases hcode : jLookup rfields "code" with
  | none =>
    simp [conditionFinding, hcode, hd1, hd2, hd3, jGetD, jIndex0, pyStr, pyStrField,
      bind, Except.bind, pure, Except.pure, Except.isOk, Except.toBool]
  | some c =>
    rw [hcode] at h
    try dsimp only at h
    cases c with
    | obj cfields =>
      try dsimp only at h
      cases hcoding : jLookup cfields "coding" with
      | none =>
        simp [conditionFinding, hcode, hcoding, hd1, hd2, hd3, jGetD, jIndex0, pyStr, pyStrField,
          bind, Except.bind, pure, Except.pure, Except.isOk, Except.toBool]
      | some cd =>
        rw [hcoding] at h
        try dsimp only at h
        cases cd with
        | arr items =>
          cases items with
          | nil => simp at h
          | cons c0 rest =>
            cases c0 with
            | obj cf2 =>
              rw [Bool.and_eq_true] at h
              rcases wfStrOpt_cases _ h.1 with hd | ⟨s, hd⟩ <;>
                rcases wfStrOpt_cases _ h.2 with hc | ⟨t, hc⟩ <;>
                simp [conditionFinding, hcode, hcoding, hd, hc, jGetD, jIndex0,
                  pyStr, pyStrField, bind, Except.bind, pure, Except.pure, Except.isOk, Except.toBool]
            | null | bool b | int n | str s | arr l => simp at h
        | null | bool b | int n | str s | obj l => simp at h
    | null | bool b | int n | str s | arr l => simp at h

/-- A well-formed resource value is a mapping. -/
theorem wfResource_obj (v : JVal) (h : wfResource v = true) :
    ∃ rfields, v = .obj rfields := by
  cases v with
  | obj rfields => exact ⟨rfields, rfl⟩
  | null | bool b | int n | str s | arr l => simp [wfResource] at h

/-- A well-shaped entry never makes the extractor's entry loop fail. -/
theorem processEntry_isOk_of_wf (e : JVal) (h : wfEntry e = true) :
    (processEntry e).isOk = true := by
  cases e with
  | obj efields =>
    unfold wfEntry at h
    dsimp only at h
    obtain ⟨rfields, hres⟩ := wfResource_obj _ h
    rw [hres] at h
    unfold processEntry
    dsimp only
    rw [hres]
    dsimp only
    unfold wfResource at h
    try dsimp only at h
    by_cases hobs : jEqStr ((jLookup rfields "resourceType").getD .null) "Observation" = true
    · rw [if_pos hobs] at h ⊢
      rcases wfStrOpt_cases _ h with hv | ⟨s, hv⟩ <;>
        simp [hv, pyStr, Except.isOk, Except.toBool, Except.map]
    · rw [if_neg hobs] at h ⊢
      by_cases hcond : jEqStr ((jLookup rfields "resourceType").getD .null) "Condition" = true
      · rw [if_pos hcond] at h ⊢
        exact conditionFinding_isOk_of_wf rfields h
      · rw [if_neg hcond]
        simp [Except.isOk, Except.toBool]
  | null | bool b | int n | str s | arr l => simp [wfEntry] at h

/-- `mapM` over `Except` succeeds when every element does. -/
theorem mapM_isOk {α β : Type} (f : α → Except PyError β) :
    ∀ (l : List α), (∀ a ∈ l, (f a).isOk = true) → (l.mapM f).isOk = true := by
  intro l
  induction l with
  | nil =>
    intro _
    rfl
  | cons a as ih =>
    intro hall
    rw [List.mapM_cons]
    have ha := hall a (List.mem_cons_self a as)
    cases hfa : f a with
    | error e => rw [hfa] at ha; simp [Except.isOk, Except.toBool] at ha
    | ok b =>
      have hrest := ih (fun x hx => hall x (List.mem_cons_of_mem a hx))
      cases hm : as.mapM f with
      | error e => rw [hm] at hrest; simp [Except.isOk, Except.toBool] at hrest
      | ok bs =>
        simp [bind, Except.bind, pure, Except.pure, Except.isOk, Except.toBool]

/-- Iterating a well-shaped `entry` value yields a list of well-shaped
entries. -/
theorem jIterItems_of_wf (v : JVal) (h : wfEntries v = true) :
    ∃ entries, jIterItems v = .ok entries ∧ ∀ e ∈ entries, wfEntry e = true := by
  cases v with
  | arr items =>
    refine ⟨items, rfl, fun e he => ?_⟩
    exact List.all_eq_true.mp h e he
  | str s =>
    unfold wfEntries at h
    rw [String.isEmpty_iff] at h
    subst h
    exact ⟨[], rfl, by simp⟩
  | obj fields =>
    unfold wfEntries at h
    rw [List.isEmpty_iff] at h
    subst h
    exact ⟨[], rfl, by simp⟩
  | null | bool b | int n => simp [wfEntries] at h

/-- The extractor succeeds on every well-formed record. -/
theorem extract_isOk_of_wf (pd : List (String × JVal)) (h : wellFormedPatientData pd = true) :
    (extract_clinical_findings pd).isOk = true := by
  unfold wellFormedPatientData at h
  unfold extract_clinical_findings
  cases hlk : jLookup pd "entry" with
  | none => simp [Except.isOk, Except.toBool]
  | some v =>
    rw [hlk] at h
    try dsimp only at h ⊢
    obtain ⟨entries, hit, hwf⟩ := jIterItems_of_wf v h
    rw [hit]
    simp only [bind, Except.bind]
    have hmm := mapM_isOk processEntry entries (fun e he => processEntry_isOk_of_wf e (hwf e he))
    cases hm : entries.mapM processEntry with
    | error e => rw [hm] at hmm; simp [Except.isOk, Except.toBool] at hmm
    | ok fss => simp [pure, Except.pure, Except.isOk, Except.toBool]

/-- A well-shaped entry never makes the risk-factor `Patient` scan fail. -/
theorem ageRiskEntryFactors_isOk_of_wf (ageOf : String → Int) (e : JVal)
    (h : wfEntry e = true) : (ageRiskEntryFactors ageOf e).isOk = true := by
  cases e with
  | obj efields =>
    unfold wfEntry at h
    dsimp only at h
    obtain ⟨rfields, hres⟩ := wfResource_obj _ h
    unfold ageRiskEntryFactors
    dsimp only
    rw [hres]
    dsimp only
    repeat' split
    all_goals simp [Except.isOk, Except.toBool]
  | null | bool b | int n | str s | arr l => simp [wfEntry] at h

/-- The risk-factor derivation succeeds on every well-formed record. -/
theorem identify_risk_factors_isOk_of_wf (ageOf : String → Int)
    (pd : List (String × JVal)) (fs : List ClinicalFinding)
    (h : wellFormedPatientData pd = true) :
    (identify_risk_factors ageOf pd fs).isOk = true := by
  unfold wellFormedPatientData at h
  unfold identify_risk_factors
  cases hlk : jLookup pd "entry" with
  | none => simp [bind, Except.bind, pure, Except.pure, Except.isOk, Except.toBool]
  | some v =>
    rw [hlk] at h
    try dsimp only at h ⊢
    obtain ⟨entries, hit, hwf⟩ := jIterItems_of_wf v h
    rw [hit]
    try dsimp only
    simp only [bind, Except.bind]
    have hmm := mapM_isOk (ageRiskEntryFactors ageOf) entries
      (fun e he => ageRiskEntryFactors_isOk_of_wf ageOf e (hwf e he))
    cases hm : entries.mapM (ageRiskEntryFactors ageOf) with
    | error e => rw [hm] at hmm; simp [Except.isOk, Except.toBool] at hmm
    | ok ls =>
      rw [age_risk_factors, hm]
      simp [Except.map, pure, Except.pure, Except.isOk, Except.toBool]

/-- pydantic-admissible radiology input: every supplied confidence score lies
in the `[0, 1]` range that `ClinicalFinding.confidence` accepts. -/
def radiologyConfidencesInRange (radiology_analysis : Option (List RadiologyAnalysis)) : Prop :=
  ∀ ras, radiology_analysis = some ras →
    ∀ analysis ∈ ras, ∀ p ∈ analysis.confidence_scores, 0 ≤ p.2 ∧ p.2 ≤ 1

/-- In-range confidence scores pass the pydantic check of the radiology
finding constructor. -/
theorem radiologyFinding_isOk (analysis : RadiologyAnalysis) (t : String)
    (h : ∀ p ∈ analysis.confidence_scores, 0 ≤ p.2 ∧ p.2 ≤ 1) :
    (radiologyFinding analysis t).isOk = true := by
  unfold radiologyFinding
  dsimp only
  split
  · rfl
  · next hcond =>
    exfalso
    apply hcond
    cases hf : analysis.confidence_scores.find? (fun p => p.1 == t) with
    | none => norm_num
    | some p =>
      have hm := List.mem_of_find?_eq_some hf
      have hb := h p hm
      simpa using hb

/-- Radiology extraction succeeds on in-range confidence scores. -/
theorem extract_radiology_findings_isOk (ras : List RadiologyAnalysis)
    (h : ∀ analysis ∈ ras, ∀ p ∈ analysis.confidence_scores, 0 ≤ p.2 ∧ p.2 ≤ 1) :
    (extract_radiology_findings ras).isOk = true := by
  unfold extract_radiology_findings
  have hmm := mapM_isOk (fun analysis : RadiologyAnalysis =>
      analysis.findings.mapM (radiologyFinding analysis)) ras
    (fun a ha => mapM_isOk (radiologyFinding a) a.findings
      (fun t _ => radiologyFinding_isOk a t (h a ha)))
  cases hm : ras.mapM (fun analysis : RadiologyAnalysis =>
      analysis.findings.mapM (radiologyFinding analysis)) with
  | error e => rw [hm] at hmm; simp [Except.isOk, Except.toBool] at hmm
  | ok ls => simp [hm, Except.map, Except.isOk, Except.toBool]

/-- The radiology extension step succeeds on admissible radiology input. -/
theorem radiologyStep_isOk (ra : Option (List RadiologyAnalysis))
    (hra : radiologyConfidencesInRange ra) : (radiologyStep ra).isOk = true := by
  cases ra with
  | none => rfl
  | some ras =>
    unfold radiologyStep
    cases hb : ras.isEmpty with
    | true => simp [hb, pure, Except.pure, Except.isOk, Except.toBool]
    | false =>
      simp only [hb, Bool.not_false, if_true]
      exact extract_radiology_findings_isOk ras (hra ras rfl)

/-- The whole pipeline succeeds on every well-formed record and admissible
radiology input. -/
theorem generate_assessment_isOk_of_wf (ageOf : String → Int)
    (pd : List (String × JVal)) (ra : Option (List RadiologyAnalysis))
    (h : wellFormedPatientData pd = true) (hra : radiologyConfidencesInRange ra) :
    (generate_assessment ageOf pd ra).isOk = true := by
  unfold generate_assessment
  cases hx : extract_clinical_findings pd with
  | error e =>
    have hok := extract_isOk_of_wf pd h
    rw [hx] at hok
    simp [Except.isOk, Except.toBool] at hok
  | ok fs =>
    simp only [bind, Except.bind]
    have hrok := radiologyStep_isOk ra hra
    cases hrad : radiologyStep ra with
    | error e =>
      rw [hrad] at hrok
      simp [Except.isOk, Except.toBool] at hrok
    | ok radFs =>
      simp only [bind, Except.bind]
      have hok := identify_risk_factors_isOk_of_wf ageOf pd (fs ++ radFs) h
      cases hr : identify_risk_factors ageOf pd (fs ++ radFs) with
      | error e =>
        rw [hr] at hok
        simp [Except.isOk, Except.toBool] at hok
      | ok rfs =>
        simp [pure, Except.pure, Except.isOk, Except.toBool]

/-- C3 counterexample: on a structurally invalid record (an entry that is not
a mapping) the pipeline fails with the built-in `AttributeError` raised by
`entry.get` — not with any repository-defined `InvalidInputError`, which does
not exist in the codebase. -/
theorem c3_counterexample :
    generate_assessment (fun _ => 0) badPatientData none
      = .error PyError.attributeError := rfl

/-- Radiology input with an out-of-range confidence score (1.5 > 1). -/
def badRadiologyAnalysis : RadiologyAnalysis :=
  ⟨"ct", ["opacity"], [("opacity", 3/2)], [], "high"⟩

/-- C3 (amended): the pipeline never fails on well-formed input with
pydantic-admissible radiology scores (missing or partial optional fields
included); on a structurally invalid record it fails with the built-in
`AttributeError`, and on a radiology confidence outside the pydantic range
[0, 1] with a `ValidationError` — never with an `InvalidInputError`, a class
the repository does not define. -/
theorem c3_amended_error_semantics :
    (∀ (ageOf : String → Int) (patient_data : List (String × JVal))
        (radiology_analysis : Option (List RadiologyAnalysis)),
      wellFormedPatientData patient_data = true →
      radiologyConfidencesInRange radiology_analysis →
      (generate_assessment ageOf patient_data radiology_analysis).isOk = true)
    ∧ extract_clinical_findings badPatientData = .error PyError.attributeError
    ∧ generate_assessment (fun _ => 0) [] (some [badRadiologyAnalysis])
        = .error PyError.validationError := by
  refine ⟨generate_assessment_isOk_of_wf, rfl, ?_⟩
  have hc : ((badRadiologyAnalysis.confidence_scores.find?
      (fun p => p.1 == "opacity")).map (fun p => p.2)).getD (7/10) = 3/2 := rfl
  have hbadrf : radiologyFinding badRadiologyAnalysis "opacity"
      = .error PyError.validationError := by
    simp only [radiologyFinding, hc]
    rw [if_neg (by norm_num)]
  have hfind : badRadiologyAnalysis.findings = ["opacity"] := rfl
  have hext : extract_radiology_findings [badRadiologyAnalysis]
      = .error PyError.validationError := by
    unfold extract_radiology_findings
    rw [List.mapM_cons]
    try dsimp only
    rw [hfind, List.mapM_cons, hbadrf]
    rfl
  have hstep : radiologyStep (some [badRadiologyAnalysis])
      = .error PyError.validationError := by
    simp [radiologyStep, hext]
  unfold generate_assessment
  rw [show extract_clinical_findings [] = .ok [] from rfl]
  simp only [bind, Except.bind]
  rw [hstep]

/-- A well-formed record exercising the default paths: an `Observation`, a
`Patient` and an entry with no resource at all. -/
def wfExamplePatientData : List (String × JVal) :=
  [("entry", .arr [
    .obj [("resource", .obj [("resourceType", .str "Observation"),
                             ("valueString", .str "mild fever")])],
    .obj [("resource", .obj [("resourceType", .str "Patient"),
                             ("birthDate", .str "1950-01-01")])],
    .obj []])]

/-- An admissible radiology input (confidence 0.5 within [0, 1]). -/
def c3WitnessRadiology : List RadiologyAnalysis :=
  [⟨"xray", ["clear lungs"], [("clear lungs", 1/2)], [], "low"⟩]

/-- Concrete instance of the amended C3 on a well-formed record with an
admissible radiology input. -/
theorem c3_amended_error_semantics_witness :
    (generate_assessment (fun _ => 0) wfExamplePatientData
      (some c3WitnessRadiology)).isOk = true :=
  c3_amended_error_semantics.1 (fun _ => 0) wfExamplePatientData
    (some c3WitnessRadiology) (by decide)
    (by
      rintro ras hres analysis han p hp
      injection hres with h2
      subst h2
      simp only [c3WitnessRadiology, List.mem_singleton] at han
      subst han
      simp only [List.mem_singleton] at hp
      subst hp
      constructor <;> norm_num)

/-! ## Claim C6 -/

/-- Every produced diagnosis carries the confidence/probability formula of
some candidate code. -/
theorem mem_generate_differential_diagnoses (fs : List ClinicalFinding) (d : Diagnosis)
    (hd : d ∈ generate_differential_diagnoses fs) :
    ∃ c, d.confidence = calculate_diagnosis_confidence fs c
      ∧ d.probability = calculate_diagnosis_confidence fs c := by
  unfold generate_differential_diagnoses at hd
  dsimp only at hd
  have hd2 := List.mem_of_mem_take hd
  have hd3 := (List.perm_insertionSort diagSortLe _).mem_iff.mp hd2
  rw [List.mem_map] at hd3
  obtain ⟨p, hp, heq⟩ := hd3
  exact ⟨p.2, by rw [← heq]; rfl, by rw [← heq]; rfl⟩

/-- The diagnosis-confidence formula always lands in [0.5, 0.9]. -/
theorem calculate_diagnosis_confidence_bounds (fs : List ClinicalFinding) (c : String) :
    1/2 ≤ calculate_diagnosis_confidence fs c
    ∧ calculate_diagnosis_confidence fs c ≤ 9/10 := by
  unfold calculate_diagnosis_confidence
  split
  · constructor <;> norm_num
  · constructor
    · apply le_min (by norm_num)
      have : (0 : ℚ) ≤ (countMatchingFindings fs c : ℚ) * (1/10) := by positivity
      linarith
    · exact min_le_left _ _

/-- The mean of a nonempty list of rationals lies between any common bounds. -/
theorem sum_div_length_bounds (l : List ℚ) (lo hi : ℚ) (hne : l ≠ [])
    (h : ∀ x ∈ l, lo ≤ x ∧ x ≤ hi) :
    lo ≤ l.sum / l.length ∧ l.sum / l.length ≤ hi := by
  have hlen : 0 < (l.length : ℚ) := by
    have h2 : 0 < l.length := List.length_pos.mpr hne
    exact_mod_cast h2
  constructor
  · rw [le_div_iff hlen]
    have h3 := List.card_nsmul_le_sum l lo (fun x hx => (h x hx).1)
    rw [nsmul_eq_mul] at h3
    linarith
  · rw [div_le_iff hlen]
    have h3 := List.sum_le_card_nsmul l hi (fun x hx => (h x hx).2)
    rw [nsmul_eq_mul] at h3
    linarith

/-- C6 (amended): every diagnosis confidence and probability lies in
[0, 0.9] (in fact in [0.5, 0.9]), but the overall confidence_score is only
bounded by [0, 0.96]: with finding confidences in the pydantic range [0, 1]
the weighted average 0.6·mean(findings) + 0.4·mean(diagnoses) can reach
0.6·1 + 0.4·0.9 = 0.96 > 0.9. -/
theorem c6_amended_bounds (fs : List ClinicalFinding)
    (hf : ∀ f ∈ fs, 0 ≤ f.confidence ∧ f.confidence ≤ 1) :
    (0 ≤ calculate_confidence_score fs (generate_differential_diagnoses fs)
      ∧ calculate_confidence_score fs (generate_differential_diagnoses fs) ≤ 24/25)
    ∧ ∀ d ∈ generate_differential_diagnoses fs,
        0 ≤ d.confidence ∧ d.confidence ≤ 9/10
        ∧ 0 ≤ d.probability ∧ d.probability ≤ 9/10 := by
  have hdiag : ∀ d ∈ generate_differential_diagnoses fs,
      0 ≤ d.confidence ∧ d.confidence ≤ 9/10
      ∧ 0 ≤ d.probability ∧ d.probability ≤ 9/10 := by
    intro d hd
    obtain ⟨c, hc, hp⟩ := mem_generate_differential_diagnoses fs d hd
    have hb := calculate_diagnosis_confidence_bounds fs c
    rw [hc, hp]
    exact ⟨by linarith [hb.1], hb.2, by linarith [hb.1], hb.2⟩
  refine ⟨?_, hdiag⟩
  unfold calculate_confidence_score
  split
  · constructor <;> norm_num
  · have hF : 0 ≤ (if !fs.isEmpty then
        (fs.map (fun f => f.confidence)).sum / (fs.length : ℚ) else 0)
      ∧ (if !fs.isEmpty then
        (fs.map (fun f => f.confidence)).sum / (fs.length : ℚ) else 0) ≤ 1 := by
      cases hfe : fs.isEmpty with
      | true => simp [hfe]
      | false =>
        rw [List.isEmpty_eq_false] at hfe
        have hb := sum_div_length_bounds (fs.map (fun f => f.confidence)) 0 1
          (by simpa using hfe)
          (by intro x hx
              rw [List.mem_map] at hx
              obtain ⟨f, hfm, rfl⟩ := hx
              exact hf f hfm)
        simpa using hb
    have hD : 0 ≤ (if !(generate_differential_diagnoses fs).isEmpty then
        ((generate_differential_diagnoses fs).map (fun d => d.confidence)).sum
          / ((generate_differential_diagnoses fs).length : ℚ) else 0)
      ∧ (if !(generate_differential_diagnoses fs).isEmpty then
        ((generate_differential_diagnoses fs).map (fun d => d.confidence)).sum
          / ((generate_differential_diagnoses fs).length : ℚ) else 0) ≤ 9/10 := by
      cases hde : (generate_differential_diagnoses fs).isEmpty with
      | true => simp [hde]; norm_num
      | false =>
        rw [List.isEmpty_eq_false] at hde
        have hb := sum_div_length_bounds
          ((generate_differential_diagnoses fs).map (fun d => d.confidence)) 0 (9/10)
          (by simpa using hde)
          (by intro x hx
              rw [List.mem_map] at hx
              obtain ⟨d, hdm, rfl⟩ := hx
              exact ⟨(hdiag d hdm).1, (hdiag d hdm).2.1⟩)
        simp only [List.length_map] at hb
        constructor
        · simpa using hb.1
        · simpa using hb.2
    constructor
    · have h1 : (0:ℚ) ≤ (6/10 : ℚ) := by norm_num
      have h2 : (0:ℚ) ≤ (4/10 : ℚ) := by norm_num
      have := mul_nonneg hF.1 h1
      have := mul_nonneg hD.1 h2
      dsimp only
      linarith
    · have h1 := mul_le_mul_of_nonneg_right hF.2 (by norm_num : (0:ℚ) ≤ 6/10)
      have h2 := mul_le_mul_of_nonneg_right hD.2 (by norm_num : (0:ℚ) ≤ 4/10)
      dsimp only
      linarith

/-- Concrete instance of the amended C6 at a one-finding list. -/
theorem c6_amended_bounds_witness :
    (0 ≤ calculate_confidence_score
        [⟨.symptom, "cough", 4/5, "anamnesis", [], []⟩]
        (generate_differential_diagnoses [⟨.symptom, "cough", 4/5, "anamnesis", [], []⟩])
      ∧ calculate_confidence_score
        [⟨.symptom, "cough", 4/5, "anamnesis", [], []⟩]
        (generate_differential_diagnoses [⟨.symptom, "cough", 4/5, "anamnesis", [], []⟩])
        ≤ 24/25)
    ∧ ∀ d ∈ generate_differential_diagnoses [⟨.symptom, "cough", 4/5, "anamnesis", [], []⟩],
        0 ≤ d.confidence ∧ d.confidence ≤ 9/10
        ∧ 0 ≤ d.probability ∧ d.probability ≤ 9/10 :=
  c6_amended_bounds _ (by
    intro f hf
    rw [List.mem_singleton] at hf
    subst hf
    constructor <;> norm_num)

/-- When at most 5 candidates are produced, the differential list is a
permutation of the pre-sort candidate list. -/
theorem generate_differential_diagnoses_perm (fs : List ClinicalFinding)
    (hlen : (triggeredCodes (findingsBlob fs)).length ≤ 5) :
    (generate_differential_diagnoses fs).Perm
      (((triggeredCodes (findingsBlob fs)).enum).map (mkDiagnosis fs)) := by
  unfold generate_differential_diagnoses
  dsimp only
  rw [List.take_of_length_le (by
    rw [(List.perm_insertionSort diagSortLe _).length_eq]
    rw [List.length_map, List.enum_length]
    exact hlen)]
  exact List.perm_insertionSort diagSortLe _

/-- A radiology analysis (legal pipeline input) whose four findings all carry
confidence 1.0 and all match the fever rule's three candidate codes. -/
def c6Analysis : RadiologyAnalysis :=
  ⟨"xray",
   ["fever, unspecified disease", "fever, unspecified disease",
    "fever, unspecified disease", "fever, unspecified disease"],
   [("fever, unspecified disease", 1)], [], "moderate"⟩

/-- One of the four identical findings the pipeline extracts from
`c6Analysis` (confidence 1.0 from the analysis's score map). -/
def c6Finding : ClinicalFinding :=
  ⟨.imaging, "fever, unspecified disease", 1, "radiology_xray",
   find_related_icd10_codes "fever, unspecified disease",
   find_related_snomed_codes "fever, unspecified disease"⟩

/-- The clinical findings the pipeline extracts from `c6Analysis`. -/
def c6Findings : List ClinicalFinding := [c6Finding, c6Finding, c6Finding, c6Finding]

/-- C6 counterexample: on the findings extracted from `c6Analysis` (finding
confidences 1.0, all three fever-rule diagnoses at the 0.9 cap) the overall
confidence score is 0.6·1 + 0.4·0.9 = 0.96, which exceeds the claimed 0.9
bound. -/
theorem c6_counterexample :
    extract_radiology_findings [c6Analysis] = .ok c6Findings
    ∧ calculate_confidence_score c6Findings (generate_differential_diagnoses c6Findings)
      = 24/25
    ∧ ¬ ((24/25 : ℚ) ≤ 9/10) := by
  have hcscore : ((c6Analysis.confidence_scores.find?
      (fun p => p.1 == "fever, unspecified disease")).map (fun p => p.2)).getD (7/10)
      = 1 := rfl
  have hrf : radiologyFinding c6Analysis "fever, unspecified disease" = .ok c6Finding := by
    simp only [radiologyFinding, hcscore]
    rw [if_pos (by norm_num)]
    rfl
  have hfindings : c6Analysis.findings =
      ["fever, unspecified disease", "fever, unspecified disease",
       "fever, unspecified disease", "fever, unspecified disease"] := rfl
  have hext6 : extract_radiology_findings [c6Analysis] = .ok c6Findings := by
    unfold extract_radiology_findings
    rw [List.mapM_cons]
    try dsimp only
    rw [hfindings, List.mapM_cons, List.mapM_cons, List.mapM_cons, List.mapM_cons, hrf]
    rfl
  refine ⟨hext6, ?_, by norm_num⟩
  have hblob : triggeredCodes (findingsBlob c6Findings) = ["R50.9", "J44.1", "K21.9"] := rfl
  have hp := generate_differential_diagnoses_perm c6Findings (by rw [hblob]; simp)
  rw [hblob] at hp
  have hpre : ((["R50.9", "J44.1", "K21.9"].enum).map (mkDiagnosis c6Findings))
      = [mkDiagnosis c6Findings (0, "R50.9"), mkDiagnosis c6Findings (1, "J44.1"),
         mkDiagnosis c6Findings (2, "K21.9")] := rfl
  rw [hpre] at hp
  have hcount1 : countMatchingFindings c6Findings "R50.9" = 4 := rfl
  have hcount2 : countMatchingFindings c6Findings "J44.1" = 4 := rfl
  have hcount3 : countMatchingFindings c6Findings "K21.9" = 4 := rfl
  have hneF : c6Findings.isEmpty = false := rfl
  have hcdc1 : calculate_diagnosis_confidence c6Findings "R50.9" = 9/10 := by
    rw [calculate_diagnosis_confidence, hneF, hcount1]
    norm_num [min_def]
  have hcdc2 : calculate_diagnosis_confidence c6Findings "J44.1" = 9/10 := by
    rw [calculate_diagnosis_confidence, hneF, hcount2]
    norm_num [min_def]
  have hcdc3 : calculate_diagnosis_confidence c6Findings "K21.9" = 9/10 := by
    rw [calculate_diagnosis_confidence, hneF, hcount3]
    norm_num [min_def]
  have hmapconf : ((generate_differential_diagnoses c6Findings).map
      (fun d => d.confidence)).sum = 27/10 := by
    rw [(hp.map (fun d => d.confidence)).sum_eq]
    simp only [List.map_cons, List.map_nil, mkDiagnosis]
    rw [hcdc1, hcdc2, hcdc3]
    norm_num
  have hlen3 : (generate_differential_diagnoses c6Findings).length = 3 := by
    rw [hp.length_eq]
    rfl
  have hneD : (generate_differential_diagnoses c6Findings).isEmpty = false := by
    rw [List.isEmpty_eq_false]
    intro h0
    rw [h0] at hlen3
    simp at hlen3
  have hmapF : c6Findings.map (fun f => f.confidence) = [1, 1, 1, 1] := rfl
  have hlenF : c6Findings.length = 4 := rfl
  rw [calculate_confidence_score, hneF, hneD]
  simp only [Bool.and_self, Bool.not_false, if_true, Bool.false_eq_true, if_false]
  rw [hmapF, hlenF, hmapconf, hlen3]
  norm_num

/-! ## Claim C1 -/

/-- A legal patient record with one existing-diagnosis `Condition`
("chest pain", code J44.1). -/
def c1PatientData : List (String × JVal) :=
  [("entry", .arr [.obj [("resource", .obj [
    ("resourceType", .str "Condition"),
    ("code", .obj [("coding", .arr [.obj [
      ("code", .str "J44.1"), ("display", .str "chest pain")]])])])]])]

/-- The finding the extractor produces from `c1PatientData`. -/
def c1Finding : ClinicalFinding :=
  ⟨.sign, "chest pain", 9/10, "existing_diagnosis", ["J44.1"],
   ["22253000", "225358003", "271737000"]⟩

/-- C1 evaluation at the failing input: on the record `c1PatientData` the
differential list comes out sorted descending as [J44.1, I25.9, R50.9], but
its `differential_rank` fields are the pre-sort positions [2, 1, 3] — not the
dense 1..N sequence the claim states (the entry at position 0 has rank 2). -/
theorem c1_rank_assigned_before_sort :
    extract_clinical_findings c1PatientData = .ok [c1Finding]
    ∧ ((generate_differential_diagnoses [c1Finding]).map
        (fun d => (d.code, d.differential_rank)))
      = [("J44.1", 2), ("I25.9", 1), ("R50.9", 3)] := by
  refine ⟨rfl, ?_⟩
  have hblob : triggeredCodes (findingsBlob [c1Finding]) = ["I25.9", "J44.1", "R50.9"] := rfl
  have hcount1 : countMatchingFindings [c1Finding] "I25.9" = 0 := rfl
  have hcount2 : countMatchingFindings [c1Finding] "J44.1" = 1 := rfl
  have hcount3 : countMatchingFindings [c1Finding] "R50.9" = 0 := rfl
  have hne : ([c1Finding] : List ClinicalFinding).isEmpty = false := rfl
  have hcdc1 : calculate_diagnosis_confidence [c1Finding] "I25.9" = 1/2 := by
    rw [calculate_diagnosis_confidence, hne, hcount1]
    norm_num [min_def]
  have hcdc2 : calculate_diagnosis_confidence [c1Finding] "J44.1" = 3/5 := by
    rw [calculate_diagnosis_confidence, hne, hcount2]
    norm_num [min_def]
  have hcdc3 : calculate_diagnosis_confidence [c1Finding] "R50.9" = 1/2 := by
    rw [calculate_diagnosis_confidence, hne, hcount3]
    norm_num [min_def]
  set A := mkDiagnosis [c1Finding] (0, "I25.9") with hA
  set B := mkDiagnosis [c1Finding] (1, "J44.1") with hB
  set C := mkDiagnosis [c1Finding] (2, "R50.9") with hC
  have hconfA : A.confidence = 1/2 := hcdc1
  have hprobA : A.probability = 1/2 := hcdc1
  have hconfB : B.confidence = 3/5 := hcdc2
  have hprobB : B.probability = 3/5 := hcdc2
  have hconfC : C.confidence = 1/2 := hcdc3
  have hprobC : C.probability = 1/2 := hcdc3
  have hAB : ¬ diagSortLe A B := by
    unfold diagSortLe
    rw [hconfA, hprobA, hconfB, hprobB]
    norm_num
  have hBC : diagSortLe B C := by
    unfold diagSortLe
    rw [hconfB, hprobB, hconfC, hprobC]
    norm_num
  have hAC : diagSortLe A C := by
    unfold diagSortLe
    rw [hconfA, hprobA, hconfC, hprobC]
  have s2 : List.orderedInsert diagSortLe B [C] = [B, C] := by
    simp only [List.orderedInsert]
    rw [if_pos hBC]
  have s3 : List.orderedInsert diagSortLe A [B, C] = [B, A, C] := by
    simp only [List.orderedInsert]
    rw [if_neg hAB, if_pos hAC]
  have hsort : List.insertionSort diagSortLe [A, B, C] = [B, A, C] := by
    calc List.insertionSort diagSortLe [A, B, C]
        = List.orderedInsert diagSortLe A (List.orderedInsert diagSortLe B
            (List.orderedInsert diagSortLe C (List.insertionSort diagSortLe []))) := rfl
      _ = List.orderedInsert diagSortLe A (List.orderedInsert diagSortLe B [C]) := rfl
      _ = List.orderedInsert diagSortLe A [B, C] := by rw [s2]
      _ = [B, A, C] := s3
  have hpre : ((["I25.9", "J44.1", "R50.9"].enum).map (mkDiagnosis [c1Finding]))
      = [A, B, C] := rfl
  unfold generate_differential_diagnoses
  dsimp only
  rw [hblob, hpre, hsort]
  rfl
